import Mathlib

/-!
Shallow embedding of the real-time core of the "Chronicles of the Banished
Immortal's Elegance" repository:

* `src/src/utils/AnimationManager.ts`   — procedural animation registry
* `src/src/components/InteractionSystem.ts` — ray-based interaction targeting
* `src/unnamed/part_002` (`PerformanceOptimizer`) — FPS tiering, LOD, frustum culling

Conventions of the embedding:

* JS `number` is modelled as `ℚ`.  The transcendental `Math.sin(2π·x)` is kept
  abstract as a parameter `sinTwoPi : ℚ → ℚ` (the code only composes it; no
  claim depends on its analytic values beyond sample points supplied as
  hypotheses).
* JS `a % b` (truncated remainder) is `jsMod`; for `b = 0` JS produces `NaN`
  while `jsMod` returns `0` — no theorem below relies on the value of a
  remainder or quotient with zero divisor (the one claim touching
  `duration = 0` is settled through the `rotate` branch, which never reads
  `progress`).
* JS `a || d` on numbers (falsy on `0`/`undefined`) is `jsOrQ`.
* Mutable `THREE.Object3D` attributes live in an explicit store
  `Nat → NodeAttrs`; object references are node ids.
* `Map` (insertion-ordered, used by `AnimationManager.animations`) is an
  association list with `mapSet`/`mapGet`/`mapDelete` reproducing JS `Map`
  semantics (replace-in-place keeps insertion order).
-/

/-- Truncation toward zero on `ℚ` (JS `Math.trunc`, the rounding used by `%`). -/
def jsTrunc (q : ℚ) : ℤ :=
  if 0 ≤ q then ⌊q⌋ else -⌊-q⌋

/-- JS remainder `a % b`: `a - b * trunc (a / b)`; JS returns `NaN` for `b = 0`,
here `0` is returned (no theorem depends on that value). -/
def jsMod (a b : ℚ) : ℚ :=
  if b = 0 then 0 else a - b * (jsTrunc (a / b) : ℚ)

/-- JS `o || d` for an optional number: `0` and `undefined` are falsy. -/
def jsOrQ (o : Option ℚ) (d : ℚ) : ℚ :=
  match o with
  | some v => if v = 0 then d else v
  | none => d

/-- Insertion-ordered map set (JS `Map.set`): replace in place, else append. -/
def mapSet {α : Type} : List (String × α) → String → α → List (String × α)
  | [], k, v => [(k, v)]
  | (k', v') :: rest, k, v =>
    if k' = k then (k, v) :: rest else (k', v') :: mapSet rest k v

/-- JS `Map.get`. -/
def mapGet {α : Type} : List (String × α) → String → Option α
  | [], _ => none
  | (k', v') :: rest, k => if k' = k then some v' else mapGet rest k

/-- JS `Map.delete` (keys are unique by construction; removes every match). -/
def mapDelete {α : Type} : List (String × α) → String → List (String × α)
  | [], _ => []
  | (k', v') :: rest, k =>
    if k' = k then mapDelete rest k else (k', v') :: mapDelete rest k

/-- Rational 3-vector (`THREE.Vector3`, and Euler angles as a triple). -/
structure Vec3 where
  x : ℚ
  y : ℚ
  z : ℚ
deriving DecidableEq, Repr

/-- RGB colour (`THREE.Color`). -/
structure ColorQ where
  r : ℚ
  g : ℚ
  b : ℚ
deriving DecidableEq, Repr

/-- Scale a colour by a rational (`Color.multiplyScalar`). -/
def ColorQ.scale (c : ColorQ) (s : ℚ) : ColorQ :=
  ⟨c.r * s, c.g * s, c.b * s⟩

/-- Material of a node: `phong` stands for a `THREE.Mesh` whose material is a
`MeshPhongMaterial` (the only emissive-capable case the source tests for);
`basic` stands for every other node/material combination. -/
inductive MaterialQ : Type
  | basic : MaterialQ
  | phong (emissive : ColorQ) : MaterialQ
deriving DecidableEq, Repr

/-- Mutable attributes of a scene node touched by `AnimationManager`. -/
structure NodeAttrs where
  position : Vec3
  rotation : Vec3
  scale : Vec3
  material : MaterialQ
deriving DecidableEq, Repr

/-- `AnimationType` enum. -/
inductive AnimationType : Type
  | float
  | rotate
  | pulse
  | glow
  | bounce
deriving DecidableEq, Repr

/-- `AnimationConfig` interface (optional fields are `Option`). -/
structure AnimationConfig where
  type : AnimationType
  duration : ℚ
  amplitude : Option ℚ := none
  speed : Option ℚ := none
  loop : Option Bool := none
  autoStart : Option Bool := none
deriving DecidableEq, Repr

/-- `AnimationInstance`: the source declares the four baseline fields optional
but `addAnimation` always assigns position/rotation/scale (and `Vector3` is
always truthy, so the restore guards always pass); only `originalEmissive` is
genuinely optional. -/
structure AnimationInstance where
  object : Nat
  config : AnimationConfig
  startTime : ℚ
  isActive : Bool
  originalPosition : Vec3
  originalRotation : Vec3
  originalScale : Vec3
  originalEmissive : Option ColorQ
deriving DecidableEq, Repr

/-- State of one `AnimationManager` together with the scene-node store it
mutates.  `clock.getElapsedTime()` is passed explicitly as `now`. -/
structure AMState where
  animations : List (String × AnimationInstance)
  isRunning : Bool
  nodes : Nat → NodeAttrs

/-- Point update of the node store. -/
def updNode (nodes : Nat → NodeAttrs) (i : Nat) (f : NodeAttrs → NodeAttrs) :
    Nat → NodeAttrs :=
  Function.update nodes i (f (nodes i))

/-- `updateFloatAnimation`: `position.copy(original); position.y += sin(2π·progress)·amplitude`. -/
def updateFloatAnimation (sinTwoPi : ℚ → ℚ) (original : Vec3)
    (config : AnimationConfig) (progress : ℚ) (n : NodeAttrs) : NodeAttrs :=
  let amplitude := jsOrQ config.amplitude 1
  let offset := sinTwoPi progress * amplitude
  { n with position := { original with y := original.y + offset } }

/-- `updateRotateAnimation`: `rotation.copy(original); rotation.y += elapsed·speed`. -/
def updateRotateAnimation (original : Vec3) (config : AnimationConfig)
    (elapsed : ℚ) (n : NodeAttrs) : NodeAttrs :=
  let speed := jsOrQ config.speed 1
  { n with rotation := { original with y := original.y + elapsed * speed } }

/-- `updatePulseAnimation`: `scale.copy(original); scale.multiplyScalar(1 + sin(2π·progress)·amplitude)`. -/
def updatePulseAnimation (sinTwoPi : ℚ → ℚ) (original : Vec3)
    (config : AnimationConfig) (progress : ℚ) (n : NodeAttrs) : NodeAttrs :=
  let amplitude := jsOrQ config.amplitude (1/5)
  let s := 1 + sinTwoPi progress * amplitude
  { n with scale := ⟨original.x * s, original.y * s, original.z * s⟩ }

/-- `updateGlowAnimation`: no-op unless the node is a phong mesh and an
original emissive was captured. -/
def updateGlowAnimation (sinTwoPi : ℚ → ℚ) (originalEmissive : Option ColorQ)
    (config : AnimationConfig) (progress : ℚ) (n : NodeAttrs) : NodeAttrs :=
  match n.material, originalEmissive with
  | MaterialQ.phong _, some e =>
    let intensity := (sinTwoPi progress + 1) * (1/2)
    let amplitude := jsOrQ config.amplitude (3/10)
    { n with material := MaterialQ.phong (e.scale (intensity * amplitude)) }
  | _, _ => n

/-- `updateBounceAnimation`: triangular fold of progress, parabolic height. -/
def updateBounceAnimation (original : Vec3) (config : AnimationConfig)
    (progress : ℚ) (n : NodeAttrs) : NodeAttrs :=
  let amplitude := jsOrQ config.amplitude 2
  let bp0 := progress * 2
  let bp := if bp0 > 1 then 2 - bp0 else bp0
  let height := 4 * bp * (1 - bp) * amplitude
  { n with position := { original with y := original.y + height } }

/-- `updateAnimation`: dispatch on the animation kind. -/
def updateAnimation (sinTwoPi : ℚ → ℚ) (nodes : Nat → NodeAttrs)
    (anim : AnimationInstance) (progress elapsed : ℚ) : Nat → NodeAttrs :=
  match anim.config.type with
  | AnimationType.float =>
    updNode nodes anim.object (updateFloatAnimation sinTwoPi anim.originalPosition anim.config progress)
  | AnimationType.rotate =>
    updNode nodes anim.object (updateRotateAnimation anim.originalRotation anim.config elapsed)
  | AnimationType.pulse =>
    updNode nodes anim.object (updatePulseAnimation sinTwoPi anim.originalScale anim.config progress)
  | AnimationType.glow =>
    updNode nodes anim.object (updateGlowAnimation sinTwoPi anim.originalEmissive anim.config progress)
  | AnimationType.bounce =>
    updNode nodes anim.object (updateBounceAnimation anim.originalPosition anim.config progress)

/-- One pass of `AnimationManager.update` at clock time `now` (the
`requestAnimationFrame` rescheduling is the host's; cancellation is the
`isRunning` check at the head).  Instances are visited in insertion order, so
a later instance touching the same attribute wins the tick. -/
def updateTick (sinTwoPi : ℚ → ℚ) (s : AMState) (now : ℚ) : AMState :=
  if s.isRunning = false then s
  else
    { s with nodes := s.animations.foldl (fun nodes p =>
        let anim := p.2
        if anim.isActive = false then nodes
        else
          let elapsed := now - anim.startTime
          let progress := jsMod elapsed anim.config.duration / anim.config.duration
          updateAnimation sinTwoPi nodes anim progress elapsed) s.nodes }

/-- `AnimationManager.start`: sets the flag and synchronously runs one update
pass (the source's `this.update()`). -/
def startLoop (sinTwoPi : ℚ → ℚ) (s : AMState) (now : ℚ) : AMState :=
  if s.isRunning then s else updateTick sinTwoPi { s with isRunning := true } now

/-- `AnimationManager.stop`. -/
def stopLoop (s : AMState) : AMState :=
  { s with isRunning := false }

/-- `AnimationManager.addAnimation`: capture baseline, store instance
(defaulting `loop`/`autoStart` to `true`), lazily start the loop. -/
def addAnimation (sinTwoPi : ℚ → ℚ) (s : AMState) (now : ℚ) (id : String)
    (objectId : Nat) (config : AnimationConfig) : AMState :=
  let node := s.nodes objectId
  let originalEmissive : Option ColorQ :=
    match node.material with
    | MaterialQ.phong e => some e
    | MaterialQ.basic => none
  let anim : AnimationInstance :=
    { object := objectId
      config := { config with
                  loop := some (config.loop.getD true)
                  autoStart := some (config.autoStart.getD true) }
      startTime := now
      isActive := config.autoStart != some false
      originalPosition := node.position
      originalRotation := node.rotation
      originalScale := node.scale
      originalEmissive := originalEmissive }
  let s' : AMState := { s with animations := mapSet s.animations id anim }
  if s'.isRunning = false && anim.isActive then startLoop sinTwoPi s' now else s'

/-- `AnimationManager.removeAnimation`: restore the baseline onto the node,
delete the instance; stop the loop whenever the registry ends up empty (this
size check runs even when `id` was absent). -/
def removeAnimation (s : AMState) (id : String) : AMState :=
  let s' : AMState :=
    match mapGet s.animations id with
    | some anim =>
      let nodes₁ := updNode s.nodes anim.object (fun n =>
        { n with position := anim.originalPosition
                 rotation := anim.originalRotation
                 scale := anim.originalScale })
      let nodes₂ :=
        match anim.originalEmissive with
        | some e =>
          updNode nodes₁ anim.object (fun n =>
            match n.material with
            | MaterialQ.phong _ => { n with material := MaterialQ.phong e }
            | MaterialQ.basic => n)
        | none => nodes₁
      { s with nodes := nodes₂, animations := mapDelete s.animations id }
    | none => s
  if s'.animations.length = 0 then stopLoop s' else s'

/-- `AnimationManager.playAnimation`: mark active, restart the phase, lazily
start the loop.  Absent id: no-op. -/
def playAnimation (sinTwoPi : ℚ → ℚ) (s : AMState) (now : ℚ) (id : String) : AMState :=
  match mapGet s.animations id with
  | some anim =>
    let s' : AMState :=
      { s with animations := mapSet s.animations id { anim with isActive := true, startTime := now } }
    if s'.isRunning = false then startLoop sinTwoPi s' now else s'
  | none => s

/-- `AnimationManager.pauseAnimation`: mark inactive; never touches the loop flag. -/
def pauseAnimation (s : AMState) (id : String) : AMState :=
  match mapGet s.animations id with
  | some anim =>
    { s with animations := mapSet s.animations id { anim with isActive := false } }
  | none => s

/-- `AnimationManager.isAnimationActive`. -/
def isAnimationActive (s : AMState) (id : String) : Bool :=
  match mapGet s.animations id with
  | some anim => anim.isActive
  | none => false

/-- Number of active (playing) instances. -/
def activeCount (s : AMState) : Nat :=
  (s.animations.filter (fun p => p.2.isActive)).length

/-- The public operations of `AnimationManager` relevant to the claims, as a
single-step alphabet (clock readings passed explicitly). -/
inductive AMOp : Type
  | add (id : String) (objectId : Nat) (config : AnimationConfig) (now : ℚ)
  | remove (id : String)
  | play (id : String) (now : ℚ)
  | pause (id : String)
  | tick (now : ℚ)

/-- Step function over the operation alphabet. -/
def AMStep (sinTwoPi : ℚ → ℚ) (s : AMState) : AMOp → AMState
  | AMOp.add id objectId config now => addAnimation sinTwoPi s now id objectId config
  | AMOp.remove id => removeAnimation s id
  | AMOp.play id now => playAnimation sinTwoPi s now id
  | AMOp.pause id => pauseAnimation s id
  | AMOp.tick now => updateTick sinTwoPi s now

/-!  ## InteractionSystem (`src/src/components/InteractionSystem.ts`)

Callbacks (`onInteract` / `onHover` / `onHoverEnd`) and the DOM prompt are
external effects; the embedding records them as an event trace (including an
explicit `setHover` event marking the assignment to
`this.currentHoveredObject`, so ordering claims about callbacks versus the
stored-state update are expressible).  JS reference identity of
`InteractableObject` records is modelled by structural equality, adequate for
the claims, whose scenarios use pairwise-distinct records.  The
pointer-lock guard at the head of the mouse handlers is host state and is
elided (claims quantify over moves that reach the targeting logic). -/

/-- `InteractableObject` (callbacks as presence flags; `object3d` a node id). -/
structure InteractableObject where
  object3d : Nat
  name : String
  description : String
  hasOnHover : Bool
  hasOnHoverEnd : Bool
  interactionDistance : ℚ
deriving DecidableEq, Repr

/-- One entry of `raycaster.intersectObjects(..., true)`: the hit distance and
the hit node together with its ancestor chain (hit node first), which is what
the `isChildOf` parent walk traverses. -/
structure Intersection where
  chain : List Nat
  distance : ℚ
deriving DecidableEq, Repr

/-- Observable events of the interaction system: callback invocations, the
assignment to `currentHoveredObject`, and the prompt refresh. -/
inductive IEvent : Type
  | hoverEnd (name : String)
  | hoverBegin (name : String)
  | interact (name : String)
  | setHover (target : Option String)
  | promptUpdate
deriving DecidableEq, Repr

/-- State of the `InteractionSystem` relevant to the claims. -/
structure ISState where
  objs : List InteractableObject
  currentHovered : Option InteractableObject
deriving DecidableEq, Repr

/-- `isChildOf(intersect.object, obj.object3d)`: the entity's node equals the
hit node or one of its ancestors. -/
def isChildOf (i : Intersection) (o : InteractableObject) : Bool :=
  i.chain.contains o.object3d

/-- `getIntersectedInteractableObject`: walk the (nearest-first) intersection
list; map each hit to the first registered entity owning it; return it when
the hit distance is within that entity's own radius, otherwise keep walking. -/
def getIntersectedInteractableObject (objs : List InteractableObject) :
    List Intersection → Option InteractableObject
  | [] => none
  | i :: rest =>
    match objs.find? (fun o => isChildOf i o) with
    | some o =>
      if i.distance ≤ o.interactionDistance then some o
      else getIntersectedInteractableObject objs rest
    | none => getIntersectedInteractableObject objs rest

/-- The per-intersection resolution step, for stating the first-match
characterisation of the walk. -/
def resolveIntersection (objs : List InteractableObject) (i : Intersection) :
    Option InteractableObject :=
  match objs.find? (fun o => isChildOf i o) with
  | some o => if i.distance ≤ o.interactionDistance then some o else none
  | none => none

/-- `onCanvasMouseMove` after the pointer-lock guard, on a given intersection
list: resolve the target; on change fire hover-end on the previous entity,
assign `currentHoveredObject`, fire hover-begin on the (new) current entity,
refresh the prompt. -/
def onCanvasMouseMove (s : ISState) (intersects : List Intersection) :
    ISState × List IEvent :=
  let target := getIntersectedInteractableObject s.objs intersects
  if target = s.currentHovered then (s, [])
  else
    let endEvents : List IEvent :=
      match s.currentHovered with
      | some o => if o.hasOnHoverEnd then [IEvent.hoverEnd o.name] else []
      | none => []
    let beginEvents : List IEvent :=
      match target with
      | some o => if o.hasOnHover then [IEvent.hoverBegin o.name] else []
      | none => []
    ({ s with currentHovered := target },
      endEvents ++ [IEvent.setHover (target.map (fun o => o.name))]
        ++ beginEvents ++ [IEvent.promptUpdate])

/-- `addInteractableObject` (the `userData` debug tagging is host state). -/
def addInteractableObject (s : ISState) (o : InteractableObject) : ISState :=
  { s with objs := s.objs ++ [o] }

/-- `removeInteractableObject`: splice the first occurrence out; if it was the
hovered entity, clear the hover and refresh the prompt — no callback fires. -/
def removeInteractableObject (s : ISState) (o : InteractableObject) :
    ISState × List IEvent :=
  if s.objs.contains o then
    let objs' := s.objs.erase o
    if s.currentHovered = some o then
      ({ objs := objs', currentHovered := none }, [IEvent.promptUpdate])
    else
      ({ s with objs := objs' }, [])
  else (s, [])

/-!  ## PerformanceOptimizer (`src/unnamed/part_002`)

The scene is modelled as a flat list of nodes; a node with `isMesh = true`
stands for a `THREE.Mesh` (its own `traverse` visit), with `shininess = some s`
exactly when its material is a `MeshPhongMaterial`.  Geometric inputs the code
obtains from the host — `camera.position.distanceTo(object.position)` and the
frustum/bounding-sphere intersection — enter as explicit functions over node
ids (`dist`, `inFrustum`); the branching logic on them is the source's. -/

/-- Performance tier. -/
inductive PerfLevel : Type
  | high
  | medium
  | low
deriving DecidableEq, Repr

/-- Counters of the 1-second sampling window. -/
structure PerfState where
  frameCount : ℚ
  lastTime : ℚ
  averageFPS : ℚ
  performanceLevel : PerfLevel
deriving DecidableEq, Repr

/-- `updatePerformanceLevel` at clock reading `currentTime`. -/
def updatePerformanceLevel (st : PerfState) (currentTime : ℚ) : PerfState :=
  let deltaTime := currentTime - st.lastTime
  let st' :=
    if deltaTime ≥ 1000 then
      let avg := st.frameCount * 1000 / deltaTime
      { st with
        averageFPS := avg
        frameCount := 0
        lastTime := currentTime
        performanceLevel :=
          if avg ≥ 50 then PerfLevel.high
          else if avg ≥ 30 then PerfLevel.medium
          else PerfLevel.low }
    else st
  { st' with frameCount := st'.frameCount + 1 }

/-- A scene node as seen by the optimizer. -/
structure SceneNode where
  id : Nat
  isMesh : Bool
  visible : Bool
  shininess : Option ℚ
  castShadow : Bool
  hasBoundingSphere : Bool
deriving DecidableEq, Repr

/-- `LODConfig` interface. -/
structure LODConfig where
  nearDistance : ℚ
  mediumDistance : ℚ
  farDistance : ℚ
  castShadow : Option Bool := none
  originalShininess : Option ℚ := none
deriving DecidableEq, Repr

/-- The optimizer flags the claims depend on. -/
structure OptSettings where
  enableLOD : Bool := true
  enableFrustumCulling : Bool := true
deriving DecidableEq, Repr

/-- `applyMediumLOD`: cap phong shininess at 50, disable shadow casting. -/
def applyMediumLOD (n : SceneNode) : SceneNode :=
  if n.isMesh then
    { n with shininess := n.shininess.map (fun s => min s 50), castShadow := false }
  else n

/-- `applyHighLOD`: `shininess = config.originalShininess || 100` (JS falsy on
`0`/`undefined`), `castShadow = config.castShadow !== false`. -/
def applyHighLOD (n : SceneNode) (config : LODConfig) : SceneNode :=
  if n.isMesh then
    { n with
      shininess := n.shininess.map (fun _ => jsOrQ config.originalShininess 100)
      castShadow := config.castShadow != some false }
  else n

/-- The three-way branch of `updateLOD` for one entry, at computed camera
distance `d`. -/
def updateLODEntry (d : ℚ) (n : SceneNode) (config : LODConfig) : SceneNode :=
  if d > config.farDistance then { n with visible := false }
  else if d > config.mediumDistance then applyMediumLOD { n with visible := true }
  else applyHighLOD { n with visible := true } config

/-- Apply the registered LOD entries (in `Map` insertion order) to the scene. -/
def applyLODEntries (dist : Nat → ℚ) (scene : List SceneNode) :
    List (Nat × LODConfig) → List SceneNode
  | [] => scene
  | (oid, config) :: rest =>
    applyLODEntries dist
      (scene.map (fun n => if n.id = oid then updateLODEntry (dist oid) n config else n))
      rest

/-- `updateLOD`: early-out on the flag, then the per-entry pass. -/
def updateLOD (settings : OptSettings) (entries : List (Nat × LODConfig))
    (dist : Nat → ℚ) (scene : List SceneNode) : List SceneNode :=
  if settings.enableLOD = false then scene
  else applyLODEntries dist scene entries

/-- Per-node action of the frustum pass: a mesh with a bounding sphere gets
`visible := frustum.intersectsSphere(worldSphere)`; anything else is skipped. -/
def frustumStep (inFrustum : Nat → Bool) (n : SceneNode) : SceneNode :=
  if n.isMesh && n.hasBoundingSphere then { n with visible := inFrustum n.id } else n

/-- `updateFrustumCulling`: early-out on the flag and on a non-perspective
camera, then the traversal. -/
def updateFrustumCulling (settings : OptSettings) (isPerspective : Bool)
    (inFrustum : Nat → Bool) (scene : List SceneNode) : List SceneNode :=
  if settings.enableFrustumCulling = false then scene
  else if isPerspective = false then scene
  else scene.map (frustumStep inFrustum)

/-- `PerformanceOptimizer.update`: the LOD pass, then the frustum pass on its
output. -/
def optimizerUpdate (settings : OptSettings) (entries : List (Nat × LODConfig))
    (dist : Nat → ℚ) (isPerspective : Bool) (inFrustum : Nat → Bool)
    (scene : List SceneNode) : List SceneNode :=
  updateFrustumCulling settings isPerspective inFrustum
    (updateLOD settings entries dist scene)

/-!  ## Concrete instances used by the claim theorems, witnesses and
counterexamples -/

/-- The LOD node and entry used to refute C8's "baseline restored" reading:
a phong mesh whose entry stores a baseline shininess of `0`. -/
def c8Node : SceneNode :=
  { id := 0, isMesh := true, visible := true, shininess := some 7,
    castShadow := true, hasBoundingSphere := true }

/-- LOD entry storing `originalShininess = 0` (JS-falsy). -/
def c8Config : LODConfig :=
  { nearDistance := 1, mediumDistance := 5, farDistance := 10,
    castShadow := some true, originalShininess := some 0 }

/-- Nearer hit, mapped to an entity whose own radius is smaller than the hit
distance (out of range). -/
def c5NearEntity : InteractableObject :=
  { object3d := 10, name := "near", description := "", hasOnHover := false,
    hasOnHoverEnd := false, interactionDistance := 1 }

/-- Farther hit, in range of its own radius. -/
def c5FarEntity : InteractableObject :=
  { object3d := 20, name := "far", description := "", hasOnHover := false,
    hasOnHoverEnd := false, interactionDistance := 10 }

/-- Entity used to refute C3 as stated: it has a hover-end callback. -/
def c3Entity : InteractableObject :=
  { object3d := 10, name := "A", description := "", hasOnHover := true,
    hasOnHoverEnd := true, interactionDistance := 5 }

/-- State in which `c3Entity` is registered and currently hovered. -/
def c3State : ISState := { objs := [c3Entity], currentHovered := some c3Entity }

/-- Previously hovered entity for the C6 scenario. -/
def c6A : InteractableObject :=
  { object3d := 10, name := "A", description := "", hasOnHover := true,
    hasOnHoverEnd := true, interactionDistance := 5 }

/-- Newly targeted entity for the C6 scenario. -/
def c6B : InteractableObject :=
  { object3d := 20, name := "B", description := "", hasOnHover := true,
    hasOnHoverEnd := true, interactionDistance := 5 }

/-- State hovering `c6A` with both entities registered. -/
def c6State : ISState := { objs := [c6A, c6B], currentHovered := some c6A }

/-- A hit on `c6B`'s node within its radius. -/
def c6Hit : Intersection := { chain := [20], distance := 3 }

/-- LOD entry for the C9 scenario (thresholds 2/5/10, defaults stored). -/
def c9Config : LODConfig :=
  { nearDistance := 2, mediumDistance := 5, farDistance := 10 }

/-- A visible phong mesh with a bounding sphere, registered for LOD. -/
def c9Node : SceneNode :=
  { id := 0, isMesh := true, visible := false, shininess := some 30,
    castShadow := true, hasBoundingSphere := true }

/-- What the LOD pass makes of `c9Node` at distance 1 (near range). -/
def c9Lod : SceneNode :=
  { id := 0, isMesh := true, visible := true, shininess := some 100,
    castShadow := true, hasBoundingSphere := true }

/-- A neutral scene node for animation-manager scenarios. -/
def node0 : NodeAttrs :=
  { position := ⟨0, 0, 0⟩, rotation := ⟨0, 0, 0⟩, scale := ⟨1, 1, 1⟩,
    material := MaterialQ.basic }

/-- An empty animation manager over a constant scene. -/
def emptyAM : AMState := { animations := [], isRunning := false, nodes := fun _ => node0 }

/-- A float animation configuration (duration 4 s, amplitude 2). -/
def floatCfg : AnimationConfig :=
  { type := AnimationType.float, duration := 4, amplitude := some 2 }

/-- A rotate animation configuration with `duration = 0` (the case C1 says is
guarded) and speed 1. -/
def rotateCfg : AnimationConfig :=
  { type := AnimationType.rotate, duration := 0, speed := some 1 }

/-- A manager holding one active rotate instance with arbitrary duration,
speed and phase, bound to node 0 (any state of this shape is reached by
`addAnimation` of the corresponding config). -/
def singleRotateAM (orig : Vec3) (dur speed startT : ℚ) : AMState :=
  { animations := [("r",
      { object := 0
        config := { type := AnimationType.rotate, duration := dur, speed := some speed,
                    loop := some true, autoStart := some true }
        startTime := startT
        isActive := true
        originalPosition := ⟨0, 0, 0⟩
        originalRotation := orig
        originalScale := ⟨1, 1, 1⟩
        originalEmissive := none })]
    isRunning := true
    nodes := fun _ =>
      { position := ⟨0, 0, 0⟩, rotation := orig, scale := ⟨1, 1, 1⟩,
        material := MaterialQ.basic } }

/-- The node of the C2 round-trip scenario: baseline `y = 5`. -/
def c2Node : NodeAttrs :=
  { position := ⟨0, 5, 0⟩, rotation := ⟨0, 0, 0⟩, scale := ⟨1, 1, 1⟩,
    material := MaterialQ.basic }

/-- Fresh manager over the C2 scene. -/
def c2Base : AMState := { animations := [], isRunning := false, nodes := fun _ => c2Node }

/-- Float animation of the C2 scenario: duration 4, amplitude 2. -/
def c2FloatCfg : AnimationConfig :=
  { type := AnimationType.float, duration := 4, amplitude := some 2 }

/-! ## Theorems: PerformanceOptimizer claims -/

/-- The classifier chain of `updatePerformanceLevel`, characterised. -/
lemma classifyChain_spec (avg : ℚ) :
    ((if avg ≥ 50 then PerfLevel.high
      else if avg ≥ 30 then PerfLevel.medium else PerfLevel.low) = PerfLevel.high ↔
      50 ≤ avg) ∧
    ((if avg ≥ 50 then PerfLevel.high
      else if avg ≥ 30 then PerfLevel.medium else PerfLevel.low) = PerfLevel.medium ↔
      30 ≤ avg ∧ avg < 50) ∧
    ((if avg ≥ 50 then PerfLevel.high
      else if avg ≥ 30 then PerfLevel.medium else PerfLevel.low) = PerfLevel.low ↔
      avg < 30) := by
  by_cases h1 : avg ≥ 50
  · rw [if_pos h1]
    refine ⟨⟨fun _ => h1, fun _ => rfl⟩,
      ⟨fun hc => PerfLevel.noConfusion hc, fun hc => absurd h1 (not_le.mpr hc.2)⟩,
      ⟨fun hc => PerfLevel.noConfusion hc,
        fun hc => absurd h1 (not_le.mpr (lt_of_lt_of_le hc (by norm_num)))⟩⟩
  · by_cases h2 : avg ≥ 30
    · rw [if_neg h1, if_pos h2]
      exact ⟨⟨fun hc => PerfLevel.noConfusion hc, fun hc => absurd hc h1⟩,
        ⟨fun _ => ⟨h2, lt_of_not_le h1⟩, fun _ => rfl⟩,
        ⟨fun hc => PerfLevel.noConfusion hc, fun hc => absurd h2 (not_le.mpr hc)⟩⟩
    · rw [if_neg h1, if_neg h2]
      exact ⟨⟨fun hc => PerfLevel.noConfusion hc, fun hc => absurd hc h1⟩,
        ⟨fun hc => PerfLevel.noConfusion hc, fun hc => absurd hc.1 h2⟩,
        ⟨fun _ => lt_of_not_le h2, fun _ => rfl⟩⟩

/-- Tier of the post-sample state, when the 1000 ms window has elapsed. -/
lemma updatePerformanceLevel_level (st : PerfState) (t : ℚ)
    (h : 1000 ≤ t - st.lastTime) :
    (updatePerformanceLevel st t).performanceLevel =
      (if st.frameCount * 1000 / (t - st.lastTime) ≥ 50 then PerfLevel.high
       else if st.frameCount * 1000 / (t - st.lastTime) ≥ 30 then PerfLevel.medium
       else PerfLevel.low) := by
  simp only [updatePerformanceLevel]
  rw [if_pos (show t - st.lastTime ≥ 1000 from h)]

/-- C7: `updatePerformanceLevel`, when a full 1000 ms window has elapsed, maps
the sampled average FPS (`frameCount·1000 / elapsed`) to exactly: `high` iff
avgFPS ≥ 50, `medium` iff 30 ≤ avgFPS < 50, `low` iff avgFPS < 30; in
particular a window sampling exactly 50 fps classifies `high` (boundary
inclusive), 45 fps classifies `medium`, 29 fps classifies `low`. -/
theorem C7_tier_classification :
    (∀ (st : PerfState) (t : ℚ), 1000 ≤ t - st.lastTime →
      ((updatePerformanceLevel st t).performanceLevel = PerfLevel.high ↔
        50 ≤ st.frameCount * 1000 / (t - st.lastTime)) ∧
      ((updatePerformanceLevel st t).performanceLevel = PerfLevel.medium ↔
        30 ≤ st.frameCount * 1000 / (t - st.lastTime) ∧
          st.frameCount * 1000 / (t - st.lastTime) < 50) ∧
      ((updatePerformanceLevel st t).performanceLevel = PerfLevel.low ↔
        st.frameCount * 1000 / (t - st.lastTime) < 30)) ∧
    (updatePerformanceLevel ⟨50, 0, 60, PerfLevel.low⟩ 1000).performanceLevel = PerfLevel.high ∧
    (updatePerformanceLevel ⟨45, 0, 60, PerfLevel.high⟩ 1000).performanceLevel = PerfLevel.medium ∧
    (updatePerformanceLevel ⟨29, 0, 60, PerfLevel.high⟩ 1000).performanceLevel = PerfLevel.low := by
  refine ⟨?_, by norm_num [updatePerformanceLevel], by norm_num [updatePerformanceLevel],
    by norm_num [updatePerformanceLevel]⟩
  intro st t h
  rw [updatePerformanceLevel_level st t h]
  exact classifyChain_spec (st.frameCount * 1000 / (t - st.lastTime))

/-- Witness for C7: the 45 fps window, classified through the theorem. -/
theorem C7_tier_classification_witness :
    (updatePerformanceLevel ⟨45, 0, 60, PerfLevel.high⟩ 1000).performanceLevel = PerfLevel.medium ↔
      30 ≤ (45 : ℚ) * 1000 / (1000 - 0) ∧ (45 : ℚ) * 1000 / (1000 - 0) < 50 :=
  (C7_tier_classification.1 ⟨45, 0, 60, PerfLevel.high⟩ 1000 (by norm_num)).2.1

/-- Counterexample to C8 as stated: at distance `1 ≤ mediumDistance` the LOD
pass does not restore the entry's stored baseline shininess `0`; the JS
`config.originalShininess || 100` default replaces it with `100`. -/
theorem C8_counterexample :
    c8Config.originalShininess = some 0 ∧
    (1 : ℚ) ≤ c8Config.mediumDistance ∧
    updateLOD ⟨true, true⟩ [(0, c8Config)] (fun _ => 1) [c8Node] =
      [{ c8Node with visible := true, shininess := some 100, castShadow := true }] ∧
    some (100 : ℚ) ≠ c8Config.originalShininess := by
  refine ⟨rfl, by norm_num [c8Config], ?_, by decide⟩
  decide

/-- C8 (amended): for every registered LOD entry the per-frame pass applies
exactly one of three outcomes at the computed camera distance `d`:
`d > far` hides the node; `medium < d ≤ far` shows it with reduced fidelity
(phong shininess capped at 50, shadow-casting disabled), idempotently (no
accumulation across frames); `d ≤ medium` (for an entry with
`medium ≤ far`) shows it with the entry's stored fidelity restored, where the
restored shininess defaults to 100 when the stored value is absent **or 0**
(JS falsy) and shadow-casting defaults to enabled when the stored flag is
absent. -/
theorem C8_lod_pass_outcomes :
    ∀ (d : ℚ) (n : SceneNode) (config : LODConfig),
      (config.farDistance < d →
        updateLODEntry d n config = { n with visible := false }) ∧
      (config.mediumDistance < d → d ≤ config.farDistance →
        updateLODEntry d n config = applyMediumLOD { n with visible := true }) ∧
      (config.mediumDistance ≤ config.farDistance → d ≤ config.mediumDistance →
        updateLODEntry d n config = applyHighLOD { n with visible := true } config) ∧
      applyMediumLOD (applyMediumLOD n) = applyMediumLOD n ∧
      (n.isMesh = true →
        (applyMediumLOD n).castShadow = false ∧
        (applyMediumLOD n).shininess = n.shininess.map (fun s => min s 50) ∧
        (applyHighLOD n config).castShadow = (config.castShadow != some false) ∧
        (applyHighLOD n config).shininess =
          n.shininess.map (fun _ => jsOrQ config.originalShininess 100)) ∧
      (∀ (settings : OptSettings) (oid : Nat) (dist : Nat → ℚ),
        settings.enableLOD = true → n.id = oid →
        updateLOD settings [(oid, config)] dist [n] =
          [updateLODEntry (dist oid) n config]) := by
  intro d n config
  refine ⟨?_, ?_, ?_, ?_, ?_, ?_⟩
  · intro hf
    rw [updateLODEntry, if_pos hf]
  · intro hm hf
    rw [updateLODEntry, if_neg (not_lt.mpr hf), if_pos hm]
  · intro hmf hm
    rw [updateLODEntry, if_neg (not_lt.mpr (le_trans hm hmf)), if_neg (not_lt.mpr hm)]
  · by_cases hm : n.isMesh
    · cases hs : n.shininess <;>
        simp [applyMediumLOD, hm, hs, min_assoc]
    · simp [applyMediumLOD, hm]
  · intro hm
    refine ⟨?_, ?_, ?_, ?_⟩ <;> simp [applyMediumLOD, applyHighLOD, hm]
  · intro settings oid dist hLOD hid
    simp [updateLOD, hLOD, applyLODEntries, hid]

/-- Witness for C8 (amended): the medium-range branch at distance 7 on the
concrete node, through the theorem. -/
theorem C8_lod_pass_outcomes_witness :
    updateLODEntry 7 c8Node c8Config = applyMediumLOD { c8Node with visible := true } :=
  (C8_lod_pass_outcomes 7 c8Node c8Config).2.1 (by norm_num [c8Config]) (by norm_num [c8Config])

/-- Indexing through `List.map`. -/
lemma mapGetElemQ {α β : Type} (f : α → β) :
    ∀ (l : List α) (i : Nat), (l.map f)[i]? = (l[i]?).map f
  | [], _ => by simp
  | _ :: _, 0 => by simp
  | _ :: rest, i + 1 => by
    simp only [List.map_cons, List.getElem?_cons_succ]
    exact mapGetElemQ f rest i

/-- C9: within one `PerformanceOptimizer.update`, the frustum-culling pass
runs strictly after the LOD pass (on the LOD pass's output) and overrides its
visibility result: with culling enabled and a perspective camera, every
mesh-bearing node with a bounding sphere ends the frame with `visible` equal
to the frustum-intersection test (so a node the LOD pass showed but that
fails the frustum test ends hidden), while a node missing a bounding sphere
is skipped and keeps the visibility the LOD pass set; no node is ever an
error (the pass is total). -/
theorem C9_frustum_overrides_lod :
    ∀ (settings : OptSettings) (entries : List (Nat × LODConfig))
      (dist : Nat → ℚ) (isPerspective : Bool) (inFrustum : Nat → Bool)
      (scene : List SceneNode) (i : Nat),
      settings.enableFrustumCulling = true → isPerspective = true →
      (optimizerUpdate settings entries dist isPerspective inFrustum scene)[i]? =
        ((updateLOD settings entries dist scene)[i]?).map (frustumStep inFrustum) ∧
      (∀ n : SceneNode, (updateLOD settings entries dist scene)[i]? = some n →
        (n.isMesh = true → n.hasBoundingSphere = true →
          (optimizerUpdate settings entries dist isPerspective inFrustum scene)[i]? =
            some { n with visible := inFrustum n.id }) ∧
        ((n.isMesh && n.hasBoundingSphere) = false →
          (optimizerUpdate settings entries dist isPerspective inFrustum scene)[i]? =
            some n)) := by
  intro settings entries dist isPerspective inFrustum scene i hc hp
  have hmain :
      (optimizerUpdate settings entries dist isPerspective inFrustum scene)[i]? =
        ((updateLOD settings entries dist scene)[i]?).map (frustumStep inFrustum) := by
    simp only [optimizerUpdate, updateFrustumCulling, hc, hp]
    simp only [if_neg (by simp : ¬ (true : Bool) = false)]
    exact mapGetElemQ (frustumStep inFrustum) (updateLOD settings entries dist scene) i
  refine ⟨hmain, ?_⟩
  intro n hn
  constructor
  · intro hm hs
    rw [hmain, hn]
    simp [frustumStep, hm, hs]
  · intro hms
    rw [hmain, hn]
    show some (frustumStep inFrustum n) = some n
    rw [frustumStep, if_neg (by simp [hms])]

/-! ## Theorems: InteractionSystem claims -/

/-- The walk of `getIntersectedInteractableObject` is the first-success scan
of `resolveIntersection` over the intersection list. -/
lemma getIntersected_eq_findSome (objs : List InteractableObject) :
    ∀ ints : List Intersection,
      getIntersectedInteractableObject objs ints =
        ints.findSome? (resolveIntersection objs)
  | [] => by
    simp [getIntersectedInteractableObject]
  | i :: rest => by
    rw [List.findSome?_cons]
    simp only [getIntersectedInteractableObject, resolveIntersection]
    cases h : objs.find? (fun o => isChildOf i o) with
    | none => simp [getIntersected_eq_findSome objs rest]
    | some o =>
      by_cases hd : i.distance ≤ o.interactionDistance
      · simp [hd]
      · simp [hd, getIntersected_eq_findSome objs rest]

/-- C5: `getIntersectedInteractableObject` walks the nearest-first
intersection list and returns the first entity whose hit distance is within
that entity's own interaction radius: the walk is exactly the first-success
scan of the per-intersection resolution (so a nearer hit mapping to an
out-of-range entity does not block a farther, in-range one), it returns
`none` when no intersection satisfies the radius condition, and on the
concrete tie-break (nearer entity radius 1 at distance 5, farther entity
radius 10 at distance 6) it returns the farther entity. -/
theorem C5_resolve_target :
    (∀ (objs : List InteractableObject) (intersects : List Intersection),
      getIntersectedInteractableObject objs intersects =
        intersects.findSome? (resolveIntersection objs)) ∧
    (∀ (objs : List InteractableObject) (intersects : List Intersection),
      (∀ i ∈ intersects, resolveIntersection objs i = none) →
      getIntersectedInteractableObject objs intersects = none) ∧
    getIntersectedInteractableObject [c5NearEntity, c5FarEntity]
      [⟨[10], 5⟩, ⟨[20], 6⟩] = some c5FarEntity := by
  refine ⟨fun objs ints => getIntersected_eq_findSome objs ints, ?_, by decide⟩
  intro objs ints h
  rw [getIntersected_eq_findSome]
  induction ints with
  | nil => simp
  | cons i rest ih =>
    rw [List.findSome?_cons, h i (by simp)]
    exact ih (fun j hj => h j (by simp [hj]))

/-- Witness for C5: with a single out-of-range intersection the resolver
returns `none`, through the theorem. -/
theorem C5_resolve_target_witness :
    getIntersectedInteractableObject [c5NearEntity] [⟨[10], 5⟩] = none :=
  C5_resolve_target.2.1 [c5NearEntity] [⟨[10], 5⟩] (by decide)

/-- Counterexample to C3 as stated: unregistering the currently hovered
entity (which has a hover-end callback) emits only the prompt refresh — the
hover-end callback never fires — while the stored hover state is cleared. -/
theorem C3_counterexample :
    c3Entity.hasOnHoverEnd = true ∧
    c3State.currentHovered = some c3Entity ∧
    (removeInteractableObject c3State c3Entity).2 = [IEvent.promptUpdate] ∧
    IEvent.hoverEnd c3Entity.name ∉ (removeInteractableObject c3State c3Entity).2 ∧
    (removeInteractableObject c3State c3Entity).1.currentHovered = none := by
  decide

/-- C3 (amended): unregistering the currently hovered entity clears the
stored hover state and refreshes the prompt but fires no callback (in
particular not the hover-end callback); unregistering a registered,
non-hovered entity fires no callback and leaves hover state unchanged;
unregistering an unknown entity changes nothing. -/
theorem C3_remove_clears_hover_without_callback :
    ∀ (s : ISState) (o : InteractableObject),
      (s.objs.contains o = true → s.currentHovered = some o →
        removeInteractableObject s o =
          (⟨s.objs.erase o, none⟩, [IEvent.promptUpdate])) ∧
      (s.objs.contains o = true → s.currentHovered ≠ some o →
        removeInteractableObject s o = (⟨s.objs.erase o, s.currentHovered⟩, [])) ∧
      (s.objs.contains o = false → removeInteractableObject s o = (s, [])) := by
  intro s o
  refine ⟨?_, ?_, ?_⟩
  · intro h1 h2
    have hm : o ∈ s.objs := by simpa using h1
    simp [removeInteractableObject, hm, h2]
  · intro h1 h2
    have hm : o ∈ s.objs := by simpa using h1
    simp [removeInteractableObject, hm, h2]
  · intro h1
    have hm : o ∉ s.objs := by simpa using h1
    simp [removeInteractableObject, hm]

/-- Witness for C3 (amended): removing the hovered `c3Entity` from
`c3State`, through the theorem. -/
theorem C3_remove_witness :
    removeInteractableObject c3State c3Entity =
      (⟨c3State.objs.erase c3Entity, none⟩, [IEvent.promptUpdate]) :=
  (C3_remove_clears_hover_without_callback c3State c3Entity).1 (by decide) (by decide)

/-- Counterexample to C6 as stated: on the A→B transition the trace is
hover-end(A), then the assignment to the stored hover state, then
hover-begin(B) — the hover-begin callback fires *after* the stored hover
state is updated, not before. -/
theorem C6_counterexample :
    (onCanvasMouseMove c6State [c6Hit]).2 =
      [IEvent.hoverEnd "A", IEvent.setHover (some "B"),
       IEvent.hoverBegin "B", IEvent.promptUpdate] ∧
    (onCanvasMouseMove c6State [c6Hit]).2.indexOf (IEvent.setHover (some "B")) <
      (onCanvasMouseMove c6State [c6Hit]).2.indexOf (IEvent.hoverBegin "B") ∧
    (onCanvasMouseMove c6State [c6Hit]).1.currentHovered = some c6B := by
  decide

/-- C6 (amended): on a pointer move whose resolved target differs from the
current hover, the previous entity's hover-end callback (if any) fires
first, then the stored hover state is updated to the new target, then the
new entity's hover-begin callback (if any) fires — end before begin, but the
state update precedes hover-begin.  A move to an empty target fires exactly
one hover-end; a move resolving to the current hover fires nothing. -/
theorem C6_hover_transition_order :
    ∀ (s : ISState) (intersects : List Intersection) (a b : InteractableObject),
      (s.currentHovered = some a → a.hasOnHoverEnd = true →
        getIntersectedInteractableObject s.objs intersects = some b →
        b.hasOnHover = true → some b ≠ some a →
        onCanvasMouseMove s intersects =
          ({ s with currentHovered := some b },
           [IEvent.hoverEnd a.name, IEvent.setHover (some b.name),
            IEvent.hoverBegin b.name, IEvent.promptUpdate])) ∧
      (s.currentHovered = some a → a.hasOnHoverEnd = true →
        getIntersectedInteractableObject s.objs intersects = none →
        onCanvasMouseMove s intersects =
          ({ s with currentHovered := none },
           [IEvent.hoverEnd a.name, IEvent.setHover none, IEvent.promptUpdate])) ∧
      (getIntersectedInteractableObject s.objs intersects = s.currentHovered →
        onCanvasMouseMove s intersects = (s, [])) := by
  intro s intersects a b
  refine ⟨?_, ?_, ?_⟩
  · intro hcur hend htgt hbeg hne
    simp only [onCanvasMouseMove, htgt, hcur]
    rw [if_neg hne]
    simp [hend, hbeg]
  · intro hcur hend htgt
    simp only [onCanvasMouseMove, htgt, hcur]
    rw [if_neg (by simp)]
    simp [hend]
  · intro htgt
    simp [onCanvasMouseMove, htgt]

/-- Witness for C6 (amended): the concrete A→B transition, through the
theorem. -/
theorem C6_hover_transition_witness :
    onCanvasMouseMove c6State [c6Hit] =
      ({ c6State with currentHovered := some c6B },
       [IEvent.hoverEnd c6A.name, IEvent.setHover (some c6B.name),
        IEvent.hoverBegin c6B.name, IEvent.promptUpdate]) :=
  (C6_hover_transition_order c6State [c6Hit] c6A c6B).1 rfl rfl (by decide) rfl (by decide)

/-! ## Theorems: AnimationManager claims -/

lemma mapGet_mapSet_self {α : Type} :
    ∀ (m : List (String × α)) (k : String) (v : α),
      mapGet (mapSet m k v) k = some v
  | [], k, v => by simp [mapSet, mapGet]
  | (k', v') :: rest, k, v => by
    by_cases h : k' = k
    · simp [mapSet, mapGet, h]
    · simp [mapSet, mapGet, h, mapGet_mapSet_self rest k v]

lemma mapGet_mapSet_ne {α : Type} :
    ∀ (m : List (String × α)) (k : String) (v : α) (k' : String), k ≠ k' →
      mapGet (mapSet m k v) k' = mapGet m k'
  | [], k, v, k', h => by simp [mapSet, mapGet, h]
  | (a, b) :: rest, k, v, k', h => by
    by_cases ha : a = k
    · have hak' : a ≠ k' := fun he => h (ha.symm.trans he)
      simp [mapSet, mapGet, ha, hak', h]
    · by_cases ha' : a = k'
      · have hk'k : k' ≠ k := fun he => h he.symm
        simp [mapSet, mapGet, ha, ha', hk'k]
      · simp [mapSet, mapGet, ha, ha', mapGet_mapSet_ne rest k v k' h]

lemma mapGet_mapDelete_self {α : Type} :
    ∀ (m : List (String × α)) (k : String), mapGet (mapDelete m k) k = none
  | [], k => by simp [mapDelete, mapGet]
  | (a, b) :: rest, k => by
    by_cases ha : a = k
    · simp [mapDelete, ha, mapGet_mapDelete_self rest k]
    · simp [mapDelete, mapGet, ha, mapGet_mapDelete_self rest k]

lemma mapGet_mapDelete_ne {α : Type} :
    ∀ (m : List (String × α)) (k k' : String), k ≠ k' →
      mapGet (mapDelete m k) k' = mapGet m k'
  | [], k, k', _ => by simp [mapDelete]
  | (a, b) :: rest, k, k', h => by
    by_cases ha : a = k
    · have hak' : a ≠ k' := fun he => h (ha.symm.trans he)
      simp [mapDelete, mapGet, ha, hak', h, mapGet_mapDelete_ne rest k k' h]
    · by_cases ha' : a = k'
      · have hk'k : k' ≠ k := fun he => h he.symm
        simp [mapDelete, mapGet, ha, ha', hk'k]
      · simp [mapDelete, mapGet, ha, ha', mapGet_mapDelete_ne rest k k' h]

lemma mapDelete_absent {α : Type} :
    ∀ (m : List (String × α)) (k : String), mapGet m k = none → mapDelete m k = m
  | [], k, _ => rfl
  | (a, b) :: rest, k, h => by
    by_cases ha : a = k
    · simp [mapGet, ha] at h
    · simp only [mapGet, if_neg ha] at h
      simp [mapDelete, ha, mapDelete_absent rest k h]

/-- An update tick never touches the registry. -/
lemma updateTick_animations (sinTwoPi : ℚ → ℚ) (s : AMState) (now : ℚ) :
    (updateTick sinTwoPi s now).animations = s.animations := by
  rw [updateTick]
  split <;> rfl

/-- Starting the loop never touches the registry. -/
lemma startLoop_animations (sinTwoPi : ℚ → ℚ) (s : AMState) (now : ℚ) :
    (startLoop sinTwoPi s now).animations = s.animations := by
  rw [startLoop]
  split
  · rfl
  · rw [updateTick_animations]

/-- `startLoop` leaves the flag up (it only runs when the flag was down and
sets it first). -/
lemma startLoop_isRunning (sinTwoPi : ℚ → ℚ) (s : AMState) (now : ℚ)
    (h : s.isRunning = false) : (startLoop sinTwoPi s now).isRunning = true := by
  rw [startLoop, if_neg (by simp [h]), updateTick]
  split <;> rfl

/-- Registry after `removeAnimation` is exactly the deletion. -/
lemma removeAnimation_animations (s : AMState) (id : String) :
    (removeAnimation s id).animations = mapDelete s.animations id := by
  rw [removeAnimation]
  cases h : mapGet s.animations id with
  | some anim =>
    simp only [h]
    split
    · rfl
    · rfl
  | none =>
    simp only [h]
    rw [mapDelete_absent s.animations id h]
    split <;> rfl

/-- Looking up an unrelated id after `addAnimation`. -/
lemma mapGet_addAnimation_ne (sinTwoPi : ℚ → ℚ) (s : AMState) (now : ℚ)
    (idA : String) (objectId : Nat) (config : AnimationConfig) (id : String)
    (h : idA ≠ id) :
    mapGet (addAnimation sinTwoPi s now idA objectId config).animations id =
      mapGet s.animations id := by
  rw [addAnimation]
  split
  · rw [startLoop_animations]
    exact mapGet_mapSet_ne s.animations idA _ id h
  · exact mapGet_mapSet_ne s.animations idA _ id h

/-- Looking up the played id after `playAnimation`. -/
lemma mapGet_playAnimation_self (sinTwoPi : ℚ → ℚ) (s : AMState) (now : ℚ)
    (id : String) (inst : AnimationInstance)
    (h : mapGet s.animations id = some inst) :
    mapGet (playAnimation sinTwoPi s now id).animations id =
      some { inst with isActive := true, startTime := now } := by
  simp only [playAnimation, h]
  split
  · rw [startLoop_animations]
    exact mapGet_mapSet_self s.animations id _
  · exact mapGet_mapSet_self s.animations id _

/-- Looking up an unrelated id after `playAnimation`. -/
lemma mapGet_playAnimation_ne (sinTwoPi : ℚ → ℚ) (s : AMState) (now : ℚ)
    (idP : String) (id : String) (h : idP ≠ id) :
    mapGet (playAnimation sinTwoPi s now idP).animations id =
      mapGet s.animations id := by
  cases hg : mapGet s.animations idP with
  | some anim =>
    simp only [playAnimation, hg]
    split
    · rw [startLoop_animations]
      exact mapGet_mapSet_ne s.animations idP _ id h
    · exact mapGet_mapSet_ne s.animations idP _ id h
  | none => simp [playAnimation, hg]

/-- Looking up the paused id after `pauseAnimation`. -/
lemma mapGet_pauseAnimation_self (s : AMState) (id : String)
    (inst : AnimationInstance) (h : mapGet s.animations id = some inst) :
    mapGet (pauseAnimation s id).animations id = some { inst with isActive := false } := by
  rw [pauseAnimation, h]
  exact mapGet_mapSet_self s.animations id _

/-- Looking up an unrelated id after `pauseAnimation`. -/
lemma mapGet_pauseAnimation_ne (s : AMState) (idP : String) (id : String)
    (h : idP ≠ id) :
    mapGet (pauseAnimation s idP).animations id = mapGet s.animations id := by
  rw [pauseAnimation]
  cases hg : mapGet s.animations idP with
  | some anim => exact mapGet_mapSet_ne s.animations idP _ id h
  | none => rfl

/-- Witness for C9: a node in near LOD range that fails the frustum test ends
the frame hidden, through the theorem. -/
theorem C9_frustum_overrides_lod_witness :
    (optimizerUpdate ⟨true, true⟩ [(0, c9Config)] (fun _ => 1) true (fun _ => false) [c9Node])[0]? =
      some { c9Lod with visible := false } :=
  ((C9_frustum_overrides_lod ⟨true, true⟩ [(0, c9Config)] (fun _ => 1) true
    (fun _ => false) [c9Node] 0 rfl rfl).2 c9Lod (by decide)).1 rfl rfl

/-- JS truncation of a fraction in `[0, 1)` is `0`. -/
lemma jsTrunc_of_lt_one (q : ℚ) (h0 : 0 ≤ q) (h1 : q < 1) : jsTrunc q = 0 := by
  rw [jsTrunc, if_pos h0]
  exact Int.floor_eq_iff.mpr ⟨by exact_mod_cast h0, by simpa using h1⟩

/-- JS `a % b` is the identity below the modulus. -/
lemma jsMod_of_lt (a b : ℚ) (h0 : 0 ≤ a) (hb : 0 < b) (h : a < b) : jsMod a b = a := by
  rw [jsMod, if_neg (ne_of_gt hb)]
  rw [jsTrunc_of_lt_one (a / b) (div_nonneg h0 hb.le) ((div_lt_one hb).mpr h)]
  simp

/-- C10: for an id absent from the registry, `playAnimation`, `pauseAnimation`
and `removeAnimation` leave the set of registered instances and every scene
node's attributes unchanged (all operations are total, so no error is ever
raised), and `isAnimationActive` returns `false`. -/
theorem C10_missing_id_is_noop :
    ∀ (sinTwoPi : ℚ → ℚ) (s : AMState) (id : String) (now : ℚ),
      mapGet s.animations id = none →
      playAnimation sinTwoPi s now id = s ∧
      pauseAnimation s id = s ∧
      (removeAnimation s id).animations = s.animations ∧
      (removeAnimation s id).nodes = s.nodes ∧
      isAnimationActive s id = false := by
  intro sinT s id now h
  refine ⟨?_, ?_, ?_, ?_, ?_⟩
  · simp [playAnimation, h]
  · simp [pauseAnimation, h]
  · rw [removeAnimation_animations, mapDelete_absent s.animations id h]
  · simp only [removeAnimation, h]
    split <;> rfl
  · simp [isAnimationActive, h]

/-- Witness for C10: the absent id "x" on the empty manager, through the
theorem. -/
theorem C10_missing_id_is_noop_witness :
    playAnimation (fun _ => 0) emptyAM 0 "x" = emptyAM ∧
    pauseAnimation emptyAM "x" = emptyAM ∧
    (removeAnimation emptyAM "x").animations = emptyAM.animations ∧
    (removeAnimation emptyAM "x").nodes = emptyAM.nodes ∧
    isAnimationActive emptyAM "x" = false :=
  C10_missing_id_is_noop (fun _ => 0) emptyAM "x" 0 rfl

/-- Counterexample to C4 as stated: registering one auto-started animation
takes the active count 0→1 and starts the loop, but pausing it (active count
1→0) leaves the loop running — `pauseAnimation` never stops the loop. -/
theorem C4_counterexample :
    activeCount (addAnimation (fun _ => 0) emptyAM 0 "a" 0 floatCfg) = 1 ∧
    (addAnimation (fun _ => 0) emptyAM 0 "a" 0 floatCfg).isRunning = true ∧
    activeCount (pauseAnimation (addAnimation (fun _ => 0) emptyAM 0 "a" 0 floatCfg) "a") = 0 ∧
    (pauseAnimation (addAnimation (fun _ => 0) emptyAM 0 "a" 0 floatCfg) "a").isRunning = true := by
  decide

/-- C4 (amended): the loop flag's actual lifecycle — `addAnimation` leaves the
loop running exactly when it was already running or the new instance is
active (so 0→1 active transitions do start it); `playAnimation` on a present
id always leaves the loop running; `pauseAnimation` never changes the loop
flag (a 1→0 active transition by pause does NOT stop the loop); and
`removeAnimation` stops the loop exactly when it leaves the registry empty
(not when the active count reaches 0). -/
theorem C4_loop_lifecycle :
    ∀ (sinTwoPi : ℚ → ℚ) (s : AMState) (id : String) (objectId : Nat)
      (config : AnimationConfig) (now : ℚ),
      ((addAnimation sinTwoPi s now id objectId config).isRunning =
        (s.isRunning || config.autoStart != some false)) ∧
      (mapGet s.animations id ≠ none →
        (playAnimation sinTwoPi s now id).isRunning = true) ∧
      (pauseAnimation s id).isRunning = s.isRunning ∧
      ((removeAnimation s id).isRunning =
        if (mapDelete s.animations id).length = 0 then false else s.isRunning) := by
  intro sinTwoPi s id objectId config now
  refine ⟨?_, ?_, ?_, ?_⟩
  · cases hr : s.isRunning with
    | true => simp [addAnimation, hr]
    | false =>
      cases hb : config.autoStart != some false with
      | true => simp [addAnimation, hr, hb, startLoop, updateTick]
      | false => simp [addAnimation, hr, hb]
  · intro hne
    cases hg : mapGet s.animations id with
    | none => exact absurd hg hne
    | some anim =>
      simp only [playAnimation, hg]
      split
      · next hcond => exact startLoop_isRunning sinTwoPi _ now hcond
      · next hcond =>
          simp at hcond
          exact hcond
  · cases hg : mapGet s.animations id <;> simp [pauseAnimation, hg]
  · cases hg : mapGet s.animations id with
    | some anim =>
      simp only [removeAnimation, hg]
      split_ifs with hlen
      · simp [stopLoop]
      · rfl
    | none =>
      simp only [removeAnimation, hg]
      rw [mapDelete_absent s.animations id hg]
      split_ifs with hlen
      · simp [stopLoop]
      · rfl

/-- Witness for C4 (amended): playing the registered id "a" leaves the loop
running, through the theorem. -/
theorem C4_loop_lifecycle_witness :
    (playAnimation (fun _ => 0) (addAnimation (fun _ => 0) emptyAM 0 "a" 0 floatCfg) 0 "a").isRunning = true :=
  (C4_loop_lifecycle (fun _ => 0) (addAnimation (fun _ => 0) emptyAM 0 "a" 0 floatCfg)
    "a" 0 floatCfg 0).2.1 (by decide)

/-- Counterexample to C1 as stated: an active rotate instance whose duration
is `0 ≤ 0` is not skipped by the tick — its node's rotation advances from 0
to 1, so the attributes are not left unchanged. -/
theorem C1_counterexample :
    rotateCfg.duration ≤ 0 ∧
    isAnimationActive (addAnimation (fun _ => 0) emptyAM 0 "r" 0 rotateCfg) "r" = true ∧
    ((updateTick (fun _ => 0) (addAnimation (fun _ => 0) emptyAM 0 "r" 0 rotateCfg) 1).nodes 0).rotation.y = 1 ∧
    ((updateTick (fun _ => 0) (addAnimation (fun _ => 0) emptyAM 0 "r" 0 rotateCfg) 1).nodes 0).rotation.y ≠
      ((addAnimation (fun _ => 0) emptyAM 0 "r" 0 rotateCfg).nodes 0).rotation.y := by
  have h1 : ((updateTick (fun _ => 0) (addAnimation (fun _ => 0) emptyAM 0 "r" 0 rotateCfg) 1).nodes 0).rotation.y = 1 := by
    simp [updateTick, addAnimation, startLoop, emptyAM, node0, rotateCfg, updateAnimation,
      updateRotateAnimation, updNode, Function.update, jsOrQ, mapSet]
  have h0 : ((addAnimation (fun _ => 0) emptyAM 0 "r" 0 rotateCfg).nodes 0).rotation.y = 0 := by
    simp [addAnimation, startLoop, updateTick, emptyAM, node0, rotateCfg, updateAnimation,
      updateRotateAnimation, updNode, Function.update, jsOrQ, mapSet]
  refine ⟨by norm_num [rotateCfg], by decide, h1, ?_⟩
  rw [h1, h0]
  norm_num

/-- C1 (amended): the per-tick update has no duration guard — an active
instance with `duration ≤ 0` is still processed, the progress division by
`duration` included (in JS it evaluates to `NaN` for `duration = 0`; the
`rotate` kind never reads it).  In particular, for a registry holding one
active rotate instance, whatever its `duration ≤ 0`, the tick sets the
node's rotation to `baseline + elapsed·speed`, which differs from the
baseline whenever `elapsed·speed ≠ 0`: the node's attributes are NOT left
unchanged that tick. -/
theorem C1_no_duration_guard :
    ∀ (sinTwoPi : ℚ → ℚ) (orig : Vec3) (dur speed startT now : ℚ),
      dur ≤ 0 → speed ≠ 0 →
      ((updateTick sinTwoPi (singleRotateAM orig dur speed startT) now).nodes 0).rotation =
        { orig with y := orig.y + (now - startT) * speed } ∧
      ((now - startT) * speed ≠ 0 →
        ((updateTick sinTwoPi (singleRotateAM orig dur speed startT) now).nodes 0).rotation.y ≠ orig.y) := by
  intro sinTwoPi orig dur speed startT now hdur hspeed
  have hmain :
      ((updateTick sinTwoPi (singleRotateAM orig dur speed startT) now).nodes 0).rotation =
        { orig with y := orig.y + (now - startT) * speed } := by
    simp [updateTick, singleRotateAM, updateAnimation, updateRotateAnimation, updNode,
      Function.update, jsOrQ, hspeed]
  refine ⟨hmain, fun hne heq => ?_⟩
  rw [hmain] at heq
  have h2 : orig.y + (now - startT) * speed = orig.y := heq
  exact hne (by linarith)

/-- Witness for C1 (amended): duration 0, speed 1, one second elapsed — the
rotation moved, through the theorem. -/
theorem C1_no_duration_guard_witness :
    (0 : ℚ) ≤ 0 ∧ (1 : ℚ) ≠ 0 ∧ ((1 : ℚ) - 0) * 1 ≠ 0 ∧
    ((updateTick (fun _ => 0) (singleRotateAM ⟨0, 0, 0⟩ 0 1 0) 1).nodes 0).rotation.y ≠
      (Vec3.mk 0 0 0).y :=
  ⟨le_refl 0, one_ne_zero, by norm_num,
    (C1_no_duration_guard (fun _ => 0) ⟨0, 0, 0⟩ 0 1 0 1 (le_refl 0) one_ne_zero).2 (by norm_num)⟩

/-- C2: (i) no operation other than a re-registration of the same id ever
changes an instance's baseline snapshot; (ii) `removeAnimation` restores the
node's position, rotation and scale to the baseline exactly, and its emissive
to the captured emissive whenever one was captured and the node is still a
phong mesh; (iii) the concrete round-trip: Float animation, amplitude 2,
baseline `y = 5`, duration 4 — one tick at `t = 1` (progress `1/4`, where
`sin(2π/4) = 1`) puts the node at `y = 7`, and unregistering restores
`y = 5` exactly. -/
theorem C2_baseline_immutable_and_restore :
    ∀ sinTwoPi : ℚ → ℚ, sinTwoPi (1/4) = 1 →
      (∀ (s : AMState) (op : AMOp) (id : String) (inst inst' : AnimationInstance),
        (∀ (objectId : Nat) (config : AnimationConfig) (now : ℚ),
          op ≠ AMOp.add id objectId config now) →
        mapGet s.animations id = some inst →
        mapGet (AMStep sinTwoPi s op).animations id = some inst' →
        inst'.originalPosition = inst.originalPosition ∧
        inst'.originalRotation = inst.originalRotation ∧
        inst'.originalScale = inst.originalScale ∧
        inst'.originalEmissive = inst.originalEmissive) ∧
      (∀ (s : AMState) (id : String) (inst : AnimationInstance),
        mapGet s.animations id = some inst →
        ((removeAnimation s id).nodes inst.object).position = inst.originalPosition ∧
        ((removeAnimation s id).nodes inst.object).rotation = inst.originalRotation ∧
        ((removeAnimation s id).nodes inst.object).scale = inst.originalScale ∧
        (∀ (e e0 : ColorQ), inst.originalEmissive = some e →
          (s.nodes inst.object).material = MaterialQ.phong e0 →
          ((removeAnimation s id).nodes inst.object).material = MaterialQ.phong e)) ∧
      ((updateTick sinTwoPi (addAnimation sinTwoPi c2Base 0 "f" 0 c2FloatCfg) 1).nodes 0).position.y = 7 ∧
      ((removeAnimation (updateTick sinTwoPi (addAnimation sinTwoPi c2Base 0 "f" 0 c2FloatCfg) 1) "f").nodes 0).position.y = 5 := by
  intro sinTwoPi h14
  refine ⟨?_, ?_, ?_, ?_⟩
  · intro s op id inst inst' hop hbefore hafter
    cases op with
    | add idA objectId config now =>
      have hne : idA ≠ id := by
        intro he
        exact hop objectId config now (by rw [he])
      simp only [AMStep] at hafter
      rw [mapGet_addAnimation_ne sinTwoPi s now idA objectId config id hne, hbefore] at hafter
      cases hafter
      exact ⟨rfl, rfl, rfl, rfl⟩
    | remove idR =>
      simp only [AMStep] at hafter
      rw [removeAnimation_animations] at hafter
      by_cases he : idR = id
      · rw [he, mapGet_mapDelete_self] at hafter
        exact Option.noConfusion hafter
      · rw [mapGet_mapDelete_ne s.animations idR id he, hbefore] at hafter
        cases hafter
        exact ⟨rfl, rfl, rfl, rfl⟩
    | play idP now =>
      simp only [AMStep] at hafter
      by_cases he : idP = id
      · rw [he] at hafter
        rw [mapGet_playAnimation_self sinTwoPi s now id inst hbefore] at hafter
        cases hafter
        exact ⟨rfl, rfl, rfl, rfl⟩
      · rw [mapGet_playAnimation_ne sinTwoPi s now idP id he, hbefore] at hafter
        cases hafter
        exact ⟨rfl, rfl, rfl, rfl⟩
    | pause idP =>
      simp only [AMStep] at hafter
      by_cases he : idP = id
      · rw [he] at hafter
        rw [mapGet_pauseAnimation_self s id inst hbefore] at hafter
        cases hafter
        exact ⟨rfl, rfl, rfl, rfl⟩
      · rw [mapGet_pauseAnimation_ne s idP id he, hbefore] at hafter
        cases hafter
        exact ⟨rfl, rfl, rfl, rfl⟩
    | tick now =>
      simp only [AMStep] at hafter
      rw [updateTick_animations, hbefore] at hafter
      cases hafter
      exact ⟨rfl, rfl, rfl, rfl⟩
  · intro s id inst h
    cases ho : inst.originalEmissive with
    | none =>
      refine ⟨?_, ?_, ?_, ?_⟩
      · simp only [removeAnimation, h, ho]
        split <;> simp [stopLoop, updNode, Function.update_same]
      · simp only [removeAnimation, h, ho]
        split <;> simp [stopLoop, updNode, Function.update_same]
      · simp only [removeAnimation, h, ho]
        split <;> simp [stopLoop, updNode, Function.update_same]
      · intro e e0 he hm
        exact Option.noConfusion he
    | some e1 =>
      refine ⟨?_, ?_, ?_, ?_⟩
      · simp only [removeAnimation, h, ho]
        split <;>
          · simp only [stopLoop, updNode, Function.update_same]
            split <;> simp
      · simp only [removeAnimation, h, ho]
        split <;>
          · simp only [stopLoop, updNode, Function.update_same]
            split <;> simp
      · simp only [removeAnimation, h, ho]
        split <;>
          · simp only [stopLoop, updNode, Function.update_same]
            split <;> simp
      · intro e e0 he hm
        cases he
        simp only [removeAnimation, h, ho]
        split <;> simp [stopLoop, updNode, Function.update_same, hm]
  · have hq : jsMod (1 : ℚ) 4 = 1 := jsMod_of_lt 1 4 (by norm_num) (by norm_num) (by norm_num)
    simp [updateTick, addAnimation, startLoop, c2Base, c2Node, c2FloatCfg, updateAnimation,
      updateFloatAnimation, updNode, Function.update, jsOrQ, mapSet, hq]
    norm_num [h14]
  · simp [removeAnimation, updateTick, addAnimation, startLoop, c2Base, c2Node, c2FloatCfg,
      updateAnimation, updateFloatAnimation, updNode, Function.update, jsOrQ, mapSet, mapGet,
      mapDelete, stopLoop]

/-- Witness for C2: a sampled sine agreeing with `sin(2π·¼) = 1`, through the
theorem; the concrete round-trip values follow. -/
theorem C2_baseline_immutable_and_restore_witness :
    ((updateTick (fun x => if x = (1/4 : ℚ) then 1 else 0)
        (addAnimation (fun x => if x = (1/4 : ℚ) then 1 else 0) c2Base 0 "f" 0 c2FloatCfg) 1).nodes 0).position.y = 7 ∧
    ((removeAnimation (updateTick (fun x => if x = (1/4 : ℚ) then 1 else 0)
        (addAnimation (fun x => if x = (1/4 : ℚ) then 1 else 0) c2Base 0 "f" 0 c2FloatCfg) 1) "f").nodes 0).position.y = 5 :=
  ⟨(C2_baseline_immutable_and_restore (fun x => if x = (1/4 : ℚ) then 1 else 0) (by norm_num)).2.2.1,
   (C2_baseline_immutable_and_restore (fun x => if x = (1/4 : ℚ) then 1 else 0) (by norm_num)).2.2.2⟩
